import Mathlib

/-!
Shallow embedding of the transaction-submission and status-polling core of
`chain/jsonrpc/src/lib.rs` (the JSON-RPC request layer of a blockchain node).

The two backend actors (the transaction-ingestion `ClientActor` and the
read-only `ViewClientActor`) are modelled as oracles inside an environment
`Env`: `Env.client k` is the reply to the k-th message sent to the ingestion
worker, `Env.view k` is the reply to the k-th `TxStatus` query sent to the
view worker.  The `tokio::time::timeout` wrappers around the polling loops are
modelled by fuel parameters (`existsFuel`, `fetchFuel`, `pollFuel`): when the
fuel is exhausted the deadline has elapsed and the loop returns its timeout
result.  The state `St` records, in order, every message sent to either
worker, so that "no message reaches the ingestion worker" is the statement
that `St.clientSent` is unchanged.
-/

/-- Account identifiers (`near_primitives::types::AccountId`), abstracted to strings. -/
abbrev AccountId := String

/-- Content hashes (`near_primitives::hash::CryptoHash`), abstracted to naturals. -/
abbrev CryptoHash := Nat

/-- Modelled from the spec: base-encoding of a content hash
(`near_primitives::serialize::BaseEncode`, absent from src); abstracted to an
injective rendering of the hash. -/
def to_base (h : CryptoHash) : String := toString h

/-- A JSON value (`serde_json::Value`). -/
inductive Value where
  | null
  | bool (b : Bool)
  | num (n : Int)
  | str (s : String)
  | arr (elems : List Value)
  | obj (fields : List (String × Value))

/-- Modelled from the spec: the inner transaction record of
`near_primitives::transaction::SignedTransaction` (absent from src); only the
fields the request layer reads (signer account and nonce) are kept. -/
structure Transaction where
  signer_id : AccountId
  nonce : Nat
deriving DecidableEq

/-- Modelled from the spec: a signed transaction
(`near_primitives::transaction::SignedTransaction`, absent from src).  The
content-addressed hash is immutable once the transaction is constructed, so it
is carried as a field. -/
structure SignedTransaction where
  transaction : Transaction
  hash : CryptoHash
deriving DecidableEq

/-- `SignedTransaction::get_hash`: the stable content hash. -/
def SignedTransaction.get_hash (tx : SignedTransaction) : CryptoHash := tx.hash

/-- Modelled from the spec: the invalid-transaction rejection reasons
(`near_primitives::errors::InvalidTxError`, absent from src).  The submission
logic only distinguishes the invalid (duplicate) nonce reason; all other
reasons are collapsed into one representative carrier. -/
inductive InvalidTxError where
  | InvalidNonce (tx_nonce : Nat) (ak_nonce : Nat)
  | Other (reason : String)
deriving DecidableEq

/-- Modelled from the spec: `near_primitives::errors::TxExecutionError`
(absent from src): a business-level execution failure is either an invalid
transaction or a failed action. -/
inductive TxExecutionError where
  | InvalidTxError (e : InvalidTxError)
  | ActionError (reason : String)
deriving DecidableEq

/-- Actix mailbox failures (`actix::MailboxError`): the backend channel is
permanently closed, or the send timed out. -/
inductive MailboxError where
  | Closed
  | Timeout
deriving DecidableEq

/-- The closed set of server error kinds (`ServerError` in lib.rs). -/
inductive ServerError where
  | TxExecutionError (e : TxExecutionError)
  | Timeout
  | Closed
  | InternalError
deriving DecidableEq

/-- `impl From<InvalidTxError> for ServerError`. -/
def ServerError.fromInvalidTx (e : InvalidTxError) : ServerError :=
  ServerError.TxExecutionError (TxExecutionError.InvalidTxError e)

/-- `impl From<MailboxError> for ServerError`. -/
def ServerError.fromMailbox : MailboxError → ServerError
  | MailboxError.Closed => ServerError.Closed
  | MailboxError.Timeout => ServerError.Timeout

/-- Modelled from the spec: the serde serialization of `InvalidTxError`
(absent from src), kept injective. -/
def InvalidTxError.toJson : InvalidTxError → Value
  | InvalidTxError.InvalidNonce t a =>
      Value.obj [("InvalidNonce", Value.obj
        [("tx_nonce", Value.num (Int.ofNat t)), ("ak_nonce", Value.num (Int.ofNat a))])]
  | InvalidTxError.Other r => Value.obj [("Other", Value.str r)]

/-- Modelled from the spec: the serde serialization of `TxExecutionError`
(absent from src). -/
def TxExecutionError.toJson : TxExecutionError → Value
  | TxExecutionError.InvalidTxError e =>
      Value.obj [("InvalidTxError", InvalidTxError.toJson e)]
  | TxExecutionError.ActionError r => Value.obj [("ActionError", Value.str r)]

/-- Modelled from the spec: the serde serialization of `ServerError`
(absent from src): unit variants serialize to their name, the data-carrying
variant to a one-field object. -/
def ServerError.toJson : ServerError → Value
  | ServerError.TxExecutionError e => Value.obj [("TxExecutionError", TxExecutionError.toJson e)]
  | ServerError.Timeout => Value.str "Timeout"
  | ServerError.Closed => Value.str "Closed"
  | ServerError.InternalError => Value.str "InternalError"

/-- Modelled from the spec: the RPC error object of
`near_jsonrpc_primitives::errors::RpcError` (absent from src): a JSON-RPC 2.0
shaped error with a code, a message, and optional data. -/
structure RpcError where
  code : Int
  message : String
  data : Option Value

/-- Modelled from the spec: `RpcError::method_not_found` (JSON-RPC 2.0 code -32601). -/
def RpcError.method_not_found (method : String) : RpcError :=
  ⟨-32601, "Method not found", some (Value.str method)⟩

/-- Modelled from the spec: `RpcError::invalid_request` (JSON-RPC 2.0 code -32600). -/
def RpcError.invalid_request : RpcError :=
  ⟨-32600, "Invalid Request", none⟩

/-- Modelled from the spec: `RpcError::invalid_params` (JSON-RPC 2.0 code -32602). -/
def RpcError.invalid_params (msg : String) : RpcError :=
  ⟨-32602, "Invalid params", some (Value.str msg)⟩

/-- Modelled from the spec: `RpcError::parse_error` (JSON-RPC 2.0 code -32700). -/
def RpcError.parse_error (msg : String) : RpcError :=
  ⟨-32700, "Parse error", some (Value.str msg)⟩

/-- Modelled from the spec: `RpcError::server_error` (code -32000), carrying
the serialized cause as data. -/
def RpcError.server_error (data : Option Value) : RpcError :=
  ⟨-32000, "Server error", data⟩

/-- `impl From<ServerError> for RpcError`: `RpcError::server_error(Some(e))`. -/
def RpcError.ofServerError (e : ServerError) : RpcError :=
  RpcError.server_error (some (ServerError.toJson e))

/-- `timeout_err()` in lib.rs. -/
def timeout_err : RpcError := RpcError.ofServerError ServerError.Timeout

/-- Modelled from the spec: the status-lookup errors of
`near_client::TxStatusError` (absent from src); the variants are those the
request layer matches on. -/
inductive TxStatusError where
  | ChainError (reason : String)
  | MissingTransaction (tx_hash : CryptoHash)
  | InvalidTx (e : InvalidTxError)
  | InternalError
  | TimeoutError
deriving DecidableEq

/-- Does this status error report an unknown (missing) transaction? -/
def TxStatusError.isMissingTx : TxStatusError → Bool
  | TxStatusError.MissingTransaction _ => true
  | _ => false

/-- Does this status error report an invalid transaction? -/
def TxStatusError.isInvalidTxKind : TxStatusError → Bool
  | TxStatusError.InvalidTx _ => true
  | _ => false

/-- Modelled from the spec: the rendering of `TxStatusError` into a plain
string (the `err.into()` conversions in `tx_polling` and `tx_status_common`;
the conversion lives in near_client, absent from src). -/
def TxStatusError.toMessage : TxStatusError → String
  | TxStatusError.ChainError r => "Chain error: " ++ r
  | TxStatusError.MissingTransaction h => "Transaction " ++ to_base h ++ " is missing"
  | TxStatusError.InvalidTx e =>
      match e with
      | InvalidTxError.InvalidNonce _ _ => "Transaction is invalid: invalid nonce"
      | InvalidTxError.Other r => "Transaction is invalid: " ++ r
  | TxStatusError.InternalError => "Internal error"
  | TxStatusError.TimeoutError => "Timeout"

/-- Modelled from the spec: the display of `actix::MailboxError` (absent from src). -/
def MailboxError.toMessage : MailboxError → String
  | MailboxError.Closed => "Mailbox has closed"
  | MailboxError.Timeout => "Message delivery timed out"

/-- Modelled from the spec: a final execution outcome view
(`near_primitives::views::FinalExecutionOutcomeViewEnum`, absent from src),
abstracted to its JSON serialization. -/
structure FinalExecutionOutcomeViewEnum where
  json : Value

/-- Serde serialization of a final execution outcome (its carried JSON value). -/
def FinalExecutionOutcomeViewEnum.toJson (o : FinalExecutionOutcomeViewEnum) : Value := o.json

/-- Modelled from the spec: the replies of the ingestion worker
(`near_network::NetworkClientResponses`, absent from src); the variants the
request layer matches on, plus a representative of the remaining ones
(`Ban`), which the submission code reaches only through its catch-all arm. -/
inductive NetworkClientResponses where
  | NoResponse
  | ValidTx
  | InvalidTx (err : InvalidTxError)
  | RequestRouted
  | DoesNotTrackShard
  | Ban (reason : String)
deriving DecidableEq

/-- The message `NetworkClientMessages::Transaction { .. }` sent to the
ingestion worker. -/
structure TransactionMsg where
  transaction : SignedTransaction
  is_forwarded : Bool
  check_only : Bool
deriving DecidableEq

/-- The `TxStatus` query sent to the view worker. -/
structure TxStatusQuery where
  tx_hash : CryptoHash
  signer_account_id : AccountId
  fetch_receipt : Bool
deriving DecidableEq

/-- `near_jsonrpc_primitives::rpc::TransactionInfo`: identity of a
status-resolve call, either a full signed transaction or a hash reference. -/
inductive TransactionInfo where
  | Transaction (tx : SignedTransaction)
  | TransactionId (hash : CryptoHash) (account_id : AccountId)
deriving DecidableEq

/-- A reply of the ingestion worker: a mailbox failure or a business response. -/
abbrev ClientReply := Except MailboxError NetworkClientResponses

/-- A reply of the view worker to a `TxStatus` query: a mailbox failure, a
status error, a not-yet-known `none`, or a final outcome. -/
abbrev ViewReply := Except MailboxError (Except TxStatusError (Option FinalExecutionOutcomeViewEnum))

/-- The record of everything a request task has sent to the two backend
workers, in order. -/
structure St where
  clientSent : List TransactionMsg
  viewQueries : List TxStatusQuery
deriving DecidableEq

/-- The empty interaction record. -/
def st0 : St := ⟨[], []⟩

/-- The environment of one request task: the two backend oracles (indexed by
how many messages have been sent to the respective worker so far), the fuel of
the three bounded polling deadlines, and the handlers of the read-only
view-proxy methods, which are outside the submission core and kept abstract
(modelled from the spec: each is a one-shot backend call). -/
structure Env where
  client : Nat → ClientReply
  view : Nat → ViewReply
  existsFuel : Nat
  fetchFuel : Nat
  pollFuel : Nat
  other : String → Option Value → St → Except RpcError Value × St

/-- `jsonify` in lib.rs: serialize a doubly-wrapped backend response, mapping
either layer of failure to a server error carrying the failure rendered as a
string.  Serialization of the success value is total in the model. -/
def jsonify (toJson : α → Value) :
    Except MailboxError (Except String α) → Except RpcError Value
  | Except.ok (Except.ok v) => Except.ok (toJson v)
  | Except.ok (Except.error e) => Except.error (RpcError.server_error (some (Value.str e)))
  | Except.error e =>
      Except.error (RpcError.server_error (some (Value.str (MailboxError.toMessage e))))

/-- Modelled from the spec: the serde deserializer behind
`parse_params::<(String,)>` — the params value must be a one-element array
holding a string. -/
def fromValueString1 : Value → Except String String
  | Value.arr [Value.str s] => Except.ok s
  | _ => Except.error "expected a one-element array holding a string"

/-- Modelled from the spec: the serde deserializer behind
`parse_params::<(CryptoHash, String)>` — a two-element array holding a
transaction hash and an account id. -/
def fromValueHashAccount : Value → Except String (CryptoHash × String)
  | Value.arr [Value.num (Int.ofNat h), Value.str a] => Except.ok (h, a)
  | _ => Except.error "expected a transaction hash and an account id"

/-- `parse_params` in lib.rs, generic over the serde deserializer. -/
def parse_params (fromValue : Value → Except String α) (value : Option Value) :
    Except RpcError α :=
  match value with
  | some v =>
    match fromValue v with
    | Except.ok x => Except.ok x
    | Except.error err => Except.error (RpcError.invalid_params ("Failed parsing args: " ++ err))
  | none => Except.error (RpcError.invalid_params "Require at least one parameter")

/-- Modelled from the spec: the base64 character table of
`near_primitives::serialize::from_base64` (absent from src). -/
def b64Val (c : Char) : Option Nat :=
  if 'A' ≤ c ∧ c ≤ 'Z' then some (c.toNat - 65)
  else if 'a' ≤ c ∧ c ≤ 'z' then some (c.toNat - 71)
  else if '0' ≤ c ∧ c ≤ '9' then some (c.toNat + 4)
  else if c = '+' then some 62
  else if c = '/' then some 63
  else none

/-- Modelled from the spec: base64 decoding
(`near_primitives::serialize::from_base64`, absent from src), abstracted to
the alphabet and length check with an injective byte mapping. -/
def from_base64 (s : String) : Except String (List Nat) :=
  if s.length % 4 = 0 then
    match s.data.mapM b64Val with
    | some bytes => Except.ok bytes
    | none => Except.error "Invalid base64"
  else Except.error "Invalid base64 length"

/-- `from_base64_or_parse_err` in lib.rs: a base64 failure becomes a parse error. -/
def from_base64_or_parse_err (encoded : String) : Except RpcError (List Nat) :=
  match from_base64 encoded with
  | Except.ok bytes => Except.ok bytes
  | Except.error err => Except.error (RpcError.parse_error err)

/-- Modelled from the spec: borsh deserialization of a signed transaction
(`SignedTransaction::try_from_slice`, absent from src), abstracted to a
length-prefixed signer followed by a nonce byte and a hash byte; any other
shape fails. -/
def SignedTransaction.try_from_slice (bytes : List Nat) : Except String SignedTransaction :=
  match bytes with
  | [] => Except.error "Unexpected end of input"
  | n :: rest =>
    if rest.length = n + 2 then
      match rest.drop n with
      | [nonce, hashv] =>
          Except.ok ⟨⟨String.mk ((rest.take n).map Char.ofNat), nonce⟩, hashv⟩
      | _ => Except.error "Unexpected end of input"
    else Except.error "Unexpected length of input"

/-- `parse_tx` in lib.rs: params must be a one-string tuple, the string must
decode from base64, and the bytes must deserialize into a signed
transaction (the last failure embeds the decode error). -/
def parse_tx (params : Option Value) : Except RpcError SignedTransaction :=
  match parse_params fromValueString1 params with
  | Except.error e => Except.error e
  | Except.ok encoded =>
    match from_base64_or_parse_err encoded with
    | Except.error e => Except.error e
    | Except.ok bytes =>
      match SignedTransaction.try_from_slice bytes with
      | Except.ok tx => Except.ok tx
      | Except.error e =>
          Except.error (RpcError.invalid_params ("Failed to decode transaction: " ++ e))

/-- The bounded existence-check loop of `tx_exists` (lib.rs 304-339): query
the view worker for a status record until it is found (`true`), explicitly
missing (`false`), the mailbox fails (internal error), or the deadline fuel
runs out (timeout); any other reply is retried. -/
def tx_exists_go (env : Env) (tx_hash : CryptoHash) (signer_account_id : AccountId) :
    Nat → St → Except ServerError Bool × St
  | 0, s => (Except.error ServerError.Timeout, s)
  | fuel + 1, s =>
    let reply := env.view s.viewQueries.length
    let s1 : St :=
      { s with viewQueries := s.viewQueries ++ [⟨tx_hash, signer_account_id, false⟩] }
    match reply with
    | Except.ok (Except.ok (some _)) => (Except.ok true, s1)
    | Except.ok (Except.error (TxStatusError.MissingTransaction _)) => (Except.ok false, s1)
    | Except.error _ => (Except.error ServerError.InternalError, s1)
    | _ => tx_exists_go env tx_hash signer_account_id fuel s1

/-- `JsonRpcHandler::tx_exists`, running the loop under the polling-timeout fuel. -/
def tx_exists (env : Env) (s : St) (tx_hash : CryptoHash) (signer_account_id : AccountId) :
    Except ServerError Bool × St :=
  tx_exists_go env tx_hash signer_account_id env.existsFuel s

/-- `JsonRpcHandler::send_tx` (lib.rs 411-441): submit the transaction to the
ingestion worker; a mailbox failure maps through `ServerError`; an
invalid-nonce rejection triggers the idempotence probe `tx_exists` and is
turned into `ValidTx` when the identical transaction already exists. -/
def send_tx (env : Env) (s : St) (tx : SignedTransaction) (check_only : Bool) :
    Except RpcError NetworkClientResponses × St :=
  let tx_hash := tx.get_hash
  let signer_account_id := tx.transaction.signer_id
  let reply := env.client s.clientSent.length
  let s1 : St := { s with clientSent := s.clientSent ++ [⟨tx, false, check_only⟩] }
  match reply with
  | Except.error err =>
      (Except.error (RpcError.ofServerError (ServerError.fromMailbox err)), s1)
  | Except.ok (NetworkClientResponses.InvalidTx (InvalidTxError.InvalidNonce t a)) =>
    match tx_exists env s1 tx_hash signer_account_id with
    | (Except.ok true, s2) => (Except.ok NetworkClientResponses.ValidTx, s2)
    | (Except.ok false, s2) =>
        (Except.ok (NetworkClientResponses.InvalidTx (InvalidTxError.InvalidNonce t a)), s2)
    | (Except.error e, s2) => (Except.error (RpcError.ofServerError e), s2)
  | Except.ok response => (Except.ok response, s1)

/-- The bounded status-fetch loop of `tx_status_fetch` (lib.rs 341-384): poll
the view worker for the final outcome; on a not-yet-known reply keep polling;
on an unknown-transaction report with a full transaction identity, attempt one
check-only resubmission through `send_tx` and terminate with the invalidity
error when that resubmission reports the transaction invalid, and with the
missing-transaction error otherwise; any other status error, or a mailbox
failure, terminates immediately; exhausted fuel is the elapsed deadline. -/
def tx_status_fetch_go (env : Env) (tx_info : TransactionInfo) (fetch_receipt : Bool)
    (tx_hash : CryptoHash) (account_id : AccountId) :
    Nat → St → Except TxStatusError FinalExecutionOutcomeViewEnum × St
  | 0, s => (Except.error TxStatusError.TimeoutError, s)
  | fuel + 1, s =>
    let reply := env.view s.viewQueries.length
    let s1 : St :=
      { s with viewQueries := s.viewQueries ++ [⟨tx_hash, account_id, fetch_receipt⟩] }
    match reply with
    | Except.ok (Except.ok (some outcome)) => (Except.ok outcome, s1)
    | Except.ok (Except.ok none) =>
        tx_status_fetch_go env tx_info fetch_receipt tx_hash account_id fuel s1
    | Except.ok (Except.error (TxStatusError.MissingTransaction h)) =>
      match tx_info with
      | TransactionInfo.Transaction tx =>
        match send_tx env s1 tx true with
        | (Except.ok (NetworkClientResponses.InvalidTx e), s2) =>
            (Except.error (TxStatusError.InvalidTx e), s2)
        | (_, s2) => (Except.error (TxStatusError.MissingTransaction h), s2)
      | _ => (Except.error (TxStatusError.MissingTransaction h), s1)
    | Except.ok (Except.error err) => (Except.error err, s1)
    | Except.error _ => (Except.error TxStatusError.InternalError, s1)

/-- `JsonRpcHandler::tx_status_fetch`: derive the hash and signer from the
transaction identity and run the bounded fetch loop. -/
def tx_status_fetch (env : Env) (s : St) (tx_info : TransactionInfo) (fetch_receipt : Bool) :
    Except TxStatusError FinalExecutionOutcomeViewEnum × St :=
  match tx_info with
  | TransactionInfo.Transaction tx =>
      tx_status_fetch_go env tx_info fetch_receipt tx.get_hash tx.transaction.signer_id
        env.fetchFuel s
  | TransactionInfo.TransactionId hash account_id =>
      tx_status_fetch_go env tx_info fetch_receipt hash account_id env.fetchFuel s

/-- The outer polling loop of `tx_polling` (lib.rs 386-406): repeat the status
fetch while it reports a missing transaction; a final outcome is serialized
through `jsonify`; any other error is returned as a server error rendering
the status error; exhausted fuel is the elapsed deadline. -/
def tx_polling_go (env : Env) (tx_info : TransactionInfo) :
    Nat → St → Except RpcError Value × St
  | 0, s => (Except.error timeout_err, s)
  | fuel + 1, s =>
    match tx_status_fetch env s tx_info false with
    | (Except.ok tx_status, s1) =>
        (jsonify FinalExecutionOutcomeViewEnum.toJson (Except.ok (Except.ok tx_status)), s1)
    | (Except.error (TxStatusError.MissingTransaction _), s1) =>
        tx_polling_go env tx_info fuel s1
    | (Except.error err, s1) =>
        (jsonify FinalExecutionOutcomeViewEnum.toJson
          (Except.ok (Except.error (TxStatusError.toMessage err))), s1)

/-- `JsonRpcHandler::tx_polling`, running the outer loop under its own deadline fuel. -/
def tx_polling (env : Env) (s : St) (tx_info : TransactionInfo) : Except RpcError Value × St :=
  tx_polling_go env tx_info env.pollFuel s

/-- `JsonRpcHandler::send_tx_async` (lib.rs 293-302): fire-and-forget
submission — parse, `do_send` the transaction without awaiting any reply, and
return the base-encoded transaction hash. -/
def send_tx_async (env : Env) (s : St) (params : Option Value) : Except RpcError Value × St :=
  match parse_tx params with
  | Except.error e => (Except.error e, s)
  | Except.ok tx =>
    (Except.ok (Value.str (to_base tx.get_hash)),
     { s with clientSent := s.clientSent ++ [⟨tx, false, false⟩] })

/-- The fixed diagnostic of lib.rs for a node that does not track the shard. -/
def does_not_track_shard_err : String :=
  "Node doesn\x27t track this shard. Cannot determine whether the transaction is valid"

/-- The acknowledgment object
`near_jsonrpc_primitives::rpc::RpcBroadcastTxSyncResponse`. -/
structure RpcBroadcastTxSyncResponse where
  transaction_hash : String
  is_routed : Bool
deriving DecidableEq

/-- Modelled from the spec: serde serialization of the sync acknowledgment
(absent from src). -/
def RpcBroadcastTxSyncResponse.toJson (r : RpcBroadcastTxSyncResponse) : Value :=
  Value.obj [("transaction_hash", Value.str r.transaction_hash),
             ("is_routed", Value.bool r.is_routed)]

/-- `JsonRpcHandler::send_or_check_tx` (lib.rs 451-492): parse, submit through
`send_tx`, and map the submission outcome — `ValidTx` is `null` in check-only
mode and the sync acknowledgment otherwise; `RequestRouted` is the
does-not-track-shard error in check-only mode and a routed acknowledgment
otherwise; `InvalidTx` carries the cause as a `TxExecutionError`;
`DoesNotTrackShard` is the fixed diagnostic; everything else is an internal
server error. -/
def send_or_check_tx (env : Env) (s : St) (params : Option Value) (check_only : Bool) :
    Except RpcError Value × St :=
  match parse_tx params with
  | Except.error e => (Except.error e, s)
  | Except.ok tx =>
    let tx_hash := to_base tx.get_hash
    match send_tx env s tx check_only with
    | (Except.error e, s1) => (Except.error e, s1)
    | (Except.ok r, s1) =>
      match r with
      | NetworkClientResponses.ValidTx =>
        if check_only then (Except.ok Value.null, s1)
        else
          (jsonify RpcBroadcastTxSyncResponse.toJson (Except.ok (Except.ok ⟨tx_hash, false⟩)), s1)
      | NetworkClientResponses.RequestRouted =>
        if check_only then
          (Except.error (RpcError.server_error (some (Value.str does_not_track_shard_err))), s1)
        else
          (jsonify RpcBroadcastTxSyncResponse.toJson (Except.ok (Except.ok ⟨tx_hash, true⟩)), s1)
      | NetworkClientResponses.InvalidTx err =>
        (Except.error (RpcError.server_error (some (ServerError.toJson
          (ServerError.TxExecutionError (TxExecutionError.InvalidTxError err))))), s1)
      | NetworkClientResponses.DoesNotTrackShard =>
        (Except.error (RpcError.server_error (some (Value.str does_not_track_shard_err))), s1)
      | _ =>
        (Except.error (RpcError.server_error (some (ServerError.toJson
          ServerError.InternalError))), s1)

/-- `JsonRpcHandler::send_tx_sync`: sync-check submission. -/
def send_tx_sync (env : Env) (s : St) (params : Option Value) : Except RpcError Value × St :=
  send_or_check_tx env s params false

/-- `JsonRpcHandler::check_tx`: check-only submission. -/
def check_tx (env : Env) (s : St) (params : Option Value) : Except RpcError Value × St :=
  send_or_check_tx env s params true

/-- `JsonRpcHandler::send_tx_commit` (lib.rs 494-517): parse, first resolve
the status of the transaction — an observable outcome is returned at once, an
invalidity error is surfaced as a `TxExecutionError` — and only otherwise
submit for ingestion and hand off to the outer polling loop; `NoResponse`
maps to `Timeout` and any other submission outcome to an internal error. -/
def send_tx_commit (env : Env) (s : St) (params : Option Value) : Except RpcError Value × St :=
  match parse_tx params with
  | Except.error e => (Except.error e, s)
  | Except.ok tx =>
    match tx_status_fetch env s (TransactionInfo.Transaction tx) false with
    | (Except.ok outcome, s1) =>
        (jsonify FinalExecutionOutcomeViewEnum.toJson (Except.ok (Except.ok outcome)), s1)
    | (Except.error (TxStatusError.InvalidTx e), s1) =>
        (Except.error (RpcError.server_error (some (ServerError.toJson
          (ServerError.TxExecutionError (TxExecutionError.InvalidTxError e))))), s1)
    | (Except.error _, s1) =>
      match send_tx env s1 tx false with
      | (Except.error e, s2) => (Except.error e, s2)
      | (Except.ok NetworkClientResponses.ValidTx, s2) =>
          tx_polling env s2 (TransactionInfo.Transaction tx)
      | (Except.ok NetworkClientResponses.RequestRouted, s2) =>
          tx_polling env s2 (TransactionInfo.Transaction tx)
      | (Except.ok (NetworkClientResponses.InvalidTx err), s2) =>
          (Except.error (RpcError.server_error (some (ServerError.toJson
            (ServerError.TxExecutionError (TxExecutionError.InvalidTxError err))))), s2)
      | (Except.ok NetworkClientResponses.NoResponse, s2) =>
          (Except.error (RpcError.server_error (some (ServerError.toJson
            ServerError.Timeout))), s2)
      | (Except.ok _, s2) =>
          (Except.error (RpcError.server_error (some (ServerError.toJson
            ServerError.InternalError))), s2)

/-- Modelled from the spec: the account-identifier validity check
(`near_runtime_utils::is_valid_account_id`, absent from src): length between
2 and 64 with characters from the account alphabet. -/
def is_valid_account_id (account_id : String) : Bool :=
  2 ≤ account_id.length && account_id.length ≤ 64 &&
    account_id.data.all (fun c =>
      ('a' ≤ c && c ≤ 'z') || ('0' ≤ c && c ≤ '9') || c = '-' || c = '_' || c = '.')

/-- `JsonRpcHandler::tx_status_common` (lib.rs 569-592): a status query whose
params parse as a (hash, account) pair resolves by reference after validating
the account id; otherwise the params must parse as a full signed transaction;
the fetch result is serialized through `jsonify` with errors rendered as
strings. -/
def tx_status_common (env : Env) (s : St) (params : Option Value) (fetch_receipt : Bool) :
    Except RpcError Value × St :=
  match parse_params fromValueHashAccount params with
  | Except.ok (hash, account_id) =>
    if is_valid_account_id account_id then
      match tx_status_fetch env s (TransactionInfo.TransactionId hash account_id) fetch_receipt with
      | (Except.ok outcome, s1) =>
          (jsonify FinalExecutionOutcomeViewEnum.toJson (Except.ok (Except.ok outcome)), s1)
      | (Except.error err, s1) =>
          (jsonify FinalExecutionOutcomeViewEnum.toJson
            (Except.ok (Except.error (TxStatusError.toMessage err))), s1)
    else (Except.error (RpcError.invalid_params ("Invalid account id: " ++ account_id)), s)
  | Except.error _ =>
    match parse_tx params with
    | Except.error e => (Except.error e, s)
    | Except.ok tx =>
      match tx_status_fetch env s (TransactionInfo.Transaction tx) fetch_receipt with
      | (Except.ok outcome, s1) =>
          (jsonify FinalExecutionOutcomeViewEnum.toJson (Except.ok (Except.ok outcome)), s1)
      | (Except.error err, s1) =>
          (jsonify FinalExecutionOutcomeViewEnum.toJson
            (Except.ok (Except.error (TxStatusError.toMessage err))), s1)

/-- The request half of the RPC envelope (modelled from the spec:
`near_jsonrpc_primitives::message::Request`, absent from src — an id, a
method name, and optional params; the id is opaque and echoed verbatim). -/
structure Request where
  id : Value
  method : String
  params : Option Value

/-- The RPC message envelope (modelled from the spec:
`near_jsonrpc_primitives::message::Message`, absent from src). -/
inductive Message where
  | request (req : Request)
  | response (id : Value) (result : Except RpcError Value)
  | error (err : RpcError)

/-- `Message::id`: requests and responses carry their id, error envelopes have none. -/
def Message.id : Message → Value
  | Message.request req => req.id
  | Message.response i _ => i
  | Message.error _ => Value.null

/-- `JsonRpcHandler::process_request` (lib.rs 223-291): the dispatch table.
Submission and status methods route into the embedded core; the read-only
view-proxy methods route to the abstract `Env.other` handlers; any method
outside the table is a method-not-found error produced locally, with no
backend interaction. -/
def process_request (env : Env) (s : St) (req : Request) : Except RpcError Value × St :=
  if req.method = "block" then env.other req.method req.params s
  else if req.method = "broadcast_tx_async" then send_tx_async env s req.params
  else if req.method = "broadcast_tx_commit" then send_tx_commit env s req.params
  else if req.method = "chunk" then env.other req.method req.params s
  else if req.method = "EXPERIMENTAL_broadcast_tx_sync" then send_tx_sync env s req.params
  else if req.method = "EXPERIMENTAL_changes" then env.other req.method req.params s
  else if req.method = "EXPERIMENTAL_changes_in_block" then env.other req.method req.params s
  else if req.method = "EXPERIMENTAL_check_tx" then check_tx env s req.params
  else if req.method = "EXPERIMENTAL_genesis_config" then env.other req.method req.params s
  else if req.method = "EXPERIMENTAL_light_client_proof" then env.other req.method req.params s
  else if req.method = "EXPERIMENTAL_protocol_config" then env.other req.method req.params s
  else if req.method = "EXPERIMENTAL_receipt" then env.other req.method req.params s
  else if req.method = "EXPERIMENTAL_tx_status" then tx_status_common env s req.params true
  else if req.method = "EXPERIMENTAL_validators_ordered" then env.other req.method req.params s
  else if req.method = "gas_price" then env.other req.method req.params s
  else if req.method = "health" then env.other req.method req.params s
  else if req.method = "light_client_proof" then env.other req.method req.params s
  else if req.method = "next_light_client_block" then env.other req.method req.params s
  else if req.method = "network_info" then env.other req.method req.params s
  else if req.method = "query" then env.other req.method req.params s
  else if req.method = "status" then env.other req.method req.params s
  else if req.method = "tx" then tx_status_common env s req.params false
  else if req.method = "validators" then env.other req.method req.params s
  else (Except.error (RpcError.method_not_found req.method), s)

/-- The named methods of the dispatch table, in source order. -/
def dispatchTableMethods : List String :=
  ["block", "broadcast_tx_async", "broadcast_tx_commit", "chunk",
   "EXPERIMENTAL_broadcast_tx_sync", "EXPERIMENTAL_changes",
   "EXPERIMENTAL_changes_in_block", "EXPERIMENTAL_check_tx",
   "EXPERIMENTAL_genesis_config", "EXPERIMENTAL_light_client_proof",
   "EXPERIMENTAL_protocol_config", "EXPERIMENTAL_receipt",
   "EXPERIMENTAL_tx_status", "EXPERIMENTAL_validators_ordered", "gas_price",
   "health", "light_client_proof", "next_light_client_block", "network_info",
   "query", "status", "tx", "validators"]

/-- `JsonRpcHandler::process` (lib.rs 185-193): a request envelope is answered
by a response envelope echoing its id; any other inbound message is an
invalid-request error envelope. -/
def process (env : Env) (s : St) (message : Message) : Message × St :=
  let i := message.id
  match message with
  | Message.request request =>
    match process_request env s request with
    | (r, s1) => (Message.response i r, s1)
  | _ => (Message.error RpcError.invalid_request, s)

/-- Spec-side classifier: is a `TxStatus` query a probe for the given
transaction hash and signer (with no receipt detail)? -/
def probeQueryOk (tx_hash : CryptoHash) (signer_account_id : AccountId)
    (q : TxStatusQuery) : Bool :=
  q.tx_hash == tx_hash && q.signer_account_id == signer_account_id && q.fetch_receipt == false

/-- Spec-side classifier: a backend submission outcome other than
accepted-as-new, accepted-and-routed-elsewhere, rejected-invalid and
shard-not-tracked. -/
def otherBackendOutcome : NetworkClientResponses → Bool
  | NetworkClientResponses.ValidTx => false
  | NetworkClientResponses.RequestRouted => false
  | NetworkClientResponses.InvalidTx _ => false
  | NetworkClientResponses.DoesNotTrackShard => false
  | _ => true

/-- Read-only view-proxy handlers that answer `null` — used by concrete test
environments; the submission claims never route into them. -/
def noopOther : String → Option Value → St → Except RpcError Value × St :=
  fun _ _ s => (Except.ok Value.null, s)

/-- Build a concrete environment from the two oracles and the three fuels. -/
def mkEnv (client : Nat → ClientReply) (view : Nat → ViewReply)
    (existsFuel fetchFuel pollFuel : Nat) : Env :=
  ⟨client, view, existsFuel, fetchFuel, pollFuel, noopOther⟩

/-- A concrete well-formed transaction: the one encoded by `paramsW`. -/
def txW : SignedTransaction := ⟨⟨String.mk [Char.ofNat 26], 0⟩, 0⟩

/-- Concrete params whose string decodes and deserializes into `txW`. -/
def paramsW : Option Value := some (Value.arr [Value.str "BaAA"])

/-- A concrete final execution outcome. -/
def outcomeW : FinalExecutionOutcomeViewEnum := ⟨Value.str "outcomeW"⟩

/-- A quiescent environment: the ingestion worker never answers usefully and
the view worker never knows the transaction. -/
def envDefault : Env :=
  mkEnv (fun _ => Except.ok NetworkClientResponses.NoResponse)
    (fun _ => Except.ok (Except.ok none)) 0 0 0

/-- Environment for the duplicate-nonce scenario: the ingestion worker rejects
with an invalid nonce, the view worker finds the status record at once. -/
def envC1w : Env :=
  mkEnv (fun _ => Except.ok (NetworkClientResponses.InvalidTx (InvalidTxError.InvalidNonce 5 4)))
    (fun _ => Except.ok (Except.ok (some outcomeW))) 1 0 0

/-- Environment for the resubmission scenario: the view worker reports the
transaction unknown, the resubmission reports it invalid (malformed). -/
def envC2w : Env :=
  mkEnv (fun _ => Except.ok (NetworkClientResponses.InvalidTx (InvalidTxError.Other "malformed")))
    (fun _ => Except.ok (Except.error (TxStatusError.MissingTransaction 0))) 0 1 0

/-- Environment whose ingestion mailbox is closed. -/
def envClosed : Env :=
  mkEnv (fun _ => Except.error MailboxError.Closed)
    (fun _ => Except.ok (Except.ok none)) 0 0 0

/-- Environment whose ingestion worker accepts the transaction as new and
whose view worker finds the outcome at once. -/
def envAccept : Env :=
  mkEnv (fun _ => Except.ok NetworkClientResponses.ValidTx)
    (fun _ => Except.ok (Except.ok (some outcomeW))) 0 1 0

/-- Environment whose ingestion worker routes the request elsewhere. -/
def envRouted : Env :=
  mkEnv (fun _ => Except.ok NetworkClientResponses.RequestRouted)
    (fun _ => Except.ok (Except.ok none)) 0 0 0

/-- Environment for the fetch-reports-invalid scenario: unknown transaction,
and the check-only resubmission reports it invalid. -/
def envFetchInvalid : Env :=
  mkEnv (fun _ => Except.ok (NetworkClientResponses.InvalidTx (InvalidTxError.Other "bad")))
    (fun _ => Except.ok (Except.error (TxStatusError.MissingTransaction 0))) 0 1 0

theorem tx_exists_go_clientSent (env : Env) (tx_hash : CryptoHash)
    (signer_account_id : AccountId) :
    ∀ (fuel : Nat) (s : St),
      ((tx_exists_go env tx_hash signer_account_id fuel s).2).clientSent = s.clientSent := by
  intro fuel
  induction fuel with
  | zero => intro s; rfl
  | succ n ih =>
    intro s
    simp only [tx_exists_go]
    split
    · rfl
    · rfl
    · rfl
    · exact ih _

theorem tx_exists_go_viewQueries (env : Env) (tx_hash : CryptoHash)
    (signer_account_id : AccountId) :
    ∀ (fuel : Nat) (s : St), ∃ l : List TxStatusQuery,
      ((tx_exists_go env tx_hash signer_account_id fuel s).2).viewQueries =
        s.viewQueries ++ l
      ∧ l.all (probeQueryOk tx_hash signer_account_id) = true := by
  intro fuel
  induction fuel with
  | zero => intro s; exact ⟨[], by simp [tx_exists_go]⟩
  | succ n ih =>
    intro s
    simp only [tx_exists_go]
    split
    · exact ⟨[⟨tx_hash, signer_account_id, false⟩], by simp [probeQueryOk]⟩
    · exact ⟨[⟨tx_hash, signer_account_id, false⟩], by simp [probeQueryOk]⟩
    · exact ⟨[⟨tx_hash, signer_account_id, false⟩], by simp [probeQueryOk]⟩
    · obtain ⟨l, hl, hall⟩ := ih
        { s with viewQueries := s.viewQueries ++ [⟨tx_hash, signer_account_id, false⟩] }
      exact ⟨⟨tx_hash, signer_account_id, false⟩ :: l,
        by simp only [hl]; simp, by simp [probeQueryOk, hall]⟩

theorem send_tx_clientSent (env : Env) (s : St) (tx : SignedTransaction) (ck : Bool) :
    ((send_tx env s tx ck).2).clientSent = s.clientSent ++ [⟨tx, false, ck⟩] := by
  simp only [send_tx, tx_exists]
  split
  · rfl
  · split
    next heq =>
      have h1 := tx_exists_go_clientSent env tx.get_hash tx.transaction.signer_id env.existsFuel
        { s with clientSent := s.clientSent ++ [⟨tx, false, ck⟩] }
      rw [heq] at h1
      exact h1
    next heq =>
      have h1 := tx_exists_go_clientSent env tx.get_hash tx.transaction.signer_id env.existsFuel
        { s with clientSent := s.clientSent ++ [⟨tx, false, ck⟩] }
      rw [heq] at h1
      exact h1
    next heq =>
      have h1 := tx_exists_go_clientSent env tx.get_hash tx.transaction.signer_id env.existsFuel
        { s with clientSent := s.clientSent ++ [⟨tx, false, ck⟩] }
      rw [heq] at h1
      exact h1
  · rfl

theorem tx_status_fetch_go_ok_clientSent (env : Env) (ti : TransactionInfo)
    (fr : Bool) (tx_hash : CryptoHash) (account_id : AccountId) :
    ∀ (fuel : Nat) (s : St) (o : FinalExecutionOutcomeViewEnum) (s1 : St),
      tx_status_fetch_go env ti fr tx_hash account_id fuel s = (Except.ok o, s1) →
      s1.clientSent = s.clientSent := by
  intro fuel
  induction fuel with
  | zero =>
    intro s o s1 h
    exact absurd (congrArg Prod.fst h) (by simp [tx_status_fetch_go])
  | succ n ih =>
    intro s o s1 h
    rw [tx_status_fetch_go] at h
    split at h
    · cases h; rfl
    · have h2 := ih _ _ _ h
      exact h2
    · rename_i hh
      cases ti with
      | Transaction tx =>
        dsimp only at h
        rcases hst : send_tx env
            { s with viewQueries := s.viewQueries ++ [⟨tx_hash, account_id, fr⟩] } tx true
          with ⟨sr, s2⟩
        rw [hst] at h
        rcases sr with e | r
        · cases h
        · cases r <;> cases h
      | TransactionId hsh acct =>
        dsimp only at h
        cases h
    · cases h
    · cases h

theorem tx_status_fetch_go_checkOnly (env : Env) (ti : TransactionInfo)
    (fr : Bool) (tx_hash : CryptoHash) (account_id : AccountId) :
    ∀ (fuel : Nat) (s : St), ∃ l : List TransactionMsg,
      ((tx_status_fetch_go env ti fr tx_hash account_id fuel s).2).clientSent =
        s.clientSent ++ l
      ∧ l.all (fun m => m.check_only) = true := by
  intro fuel
  induction fuel with
  | zero => intro s; exact ⟨[], by simp [tx_status_fetch_go]⟩
  | succ n ih =>
    intro s
    rw [tx_status_fetch_go]
    split
    · exact ⟨[], by simp⟩
    · exact ih _
    · cases ti with
      | Transaction tx =>
        dsimp only
        rcases hst : send_tx env
            { s with viewQueries := s.viewQueries ++ [⟨tx_hash, account_id, fr⟩] } tx true
          with ⟨sr, s2⟩
        have h1 := send_tx_clientSent env
          { s with viewQueries := s.viewQueries ++ [⟨tx_hash, account_id, fr⟩] } tx true
        rw [hst] at h1
        rcases sr with e | r
        · exact ⟨[⟨tx, false, true⟩], h1, rfl⟩
        · cases r <;> exact ⟨[⟨tx, false, true⟩], h1, rfl⟩
      | TransactionId hsh acct =>
        dsimp only
        exact ⟨[], by simp⟩
    · exact ⟨[], by simp⟩
    · exact ⟨[], by simp⟩

theorem tx_status_fetch_ok_clientSent (env : Env) (s : St) (ti : TransactionInfo)
    (fr : Bool) (o : FinalExecutionOutcomeViewEnum) (s1 : St)
    (h : tx_status_fetch env s ti fr = (Except.ok o, s1)) :
    s1.clientSent = s.clientSent := by
  cases ti with
  | Transaction tx =>
    exact tx_status_fetch_go_ok_clientSent env _ fr tx.get_hash tx.transaction.signer_id
      env.fetchFuel s o s1 h
  | TransactionId hash account_id =>
    exact tx_status_fetch_go_ok_clientSent env _ fr hash account_id env.fetchFuel s o s1 h

theorem tx_status_fetch_checkOnly (env : Env) (s : St) (ti : TransactionInfo) (fr : Bool) :
    ∃ l : List TransactionMsg,
      ((tx_status_fetch env s ti fr).2).clientSent = s.clientSent ++ l
      ∧ l.all (fun m => m.check_only) = true := by
  cases ti with
  | Transaction tx =>
    exact tx_status_fetch_go_checkOnly env _ fr tx.get_hash tx.transaction.signer_id
      env.fetchFuel s
  | TransactionId hash account_id =>
    exact tx_status_fetch_go_checkOnly env _ fr hash account_id env.fetchFuel s

theorem tx_polling_go_checkOnly (env : Env) (ti : TransactionInfo) :
    ∀ (fuel : Nat) (s : St), ∃ l : List TransactionMsg,
      ((tx_polling_go env ti fuel s).2).clientSent = s.clientSent ++ l
      ∧ l.all (fun m => m.check_only) = true := by
  intro fuel
  induction fuel with
  | zero => intro s; exact ⟨[], by simp [tx_polling_go]⟩
  | succ n ih =>
    intro s
    rw [tx_polling_go]
    rcases hfe : tx_status_fetch env s ti false with ⟨fres, s1⟩
    obtain ⟨l1, hl1, ha1⟩ := tx_status_fetch_checkOnly env s ti false
    rw [hfe] at hl1
    rcases fres with err | o
    · cases err with
      | MissingTransaction h =>
        obtain ⟨l2, hl2, ha2⟩ := ih s1
        refine ⟨l1 ++ l2, ?_, ?_⟩
        · rw [hl2]
          exact hl1 ▸ List.append_assoc _ _ _
        · simp only [List.all_append, ha1, ha2, Bool.and_self]
      | ChainError r => exact ⟨l1, hl1, ha1⟩
      | InvalidTx e => exact ⟨l1, hl1, ha1⟩
      | InternalError => exact ⟨l1, hl1, ha1⟩
      | TimeoutError => exact ⟨l1, hl1, ha1⟩
    · exact ⟨l1, hl1, ha1⟩

theorem parse_params_error_code {α : Type} (fv : Value → Except String α)
    (v : Option Value) (e : RpcError) (h : parse_params fv v = Except.error e) :
    e.code = -32602 := by
  unfold parse_params at h
  cases v with
  | none => cases h; rfl
  | some w =>
    cases hf : fv w with
    | ok x => simp only [hf] at h; exact Except.noConfusion h
    | error msg => simp only [hf] at h; cases h; rfl

theorem parse_tx_error_code (params : Option Value) (e : RpcError)
    (h : parse_tx params = Except.error e) : e.code = -32602 ∨ e.code = -32700 := by
  unfold parse_tx at h
  cases hp : parse_params fromValueString1 params with
  | error e1 =>
    simp only [hp] at h
    cases h
    exact Or.inl (parse_params_error_code _ _ _ hp)
  | ok enc =>
    simp only [hp] at h
    cases hb : from_base64_or_parse_err enc with
    | error e2 =>
      simp only [hb] at h
      cases h
      unfold from_base64_or_parse_err at hb
      cases hfb : from_base64 enc with
      | ok bytes => simp only [hfb] at hb; exact Except.noConfusion hb
      | error msg => simp only [hfb] at hb; cases hb; exact Or.inr rfl
    | ok bytes =>
      simp only [hb] at h
      cases ht : SignedTransaction.try_from_slice bytes with
      | ok tx => simp only [ht] at h; exact Except.noConfusion h
      | error msg => simp only [ht] at h; cases h; exact Or.inl rfl

/-- C1: on a duplicate-nonce (invalid nonce) rejection from the ingestion
worker, `send_tx` probes through `tx_exists` whether a status record for the
same transaction hash and signer already exists — every probe query carries
exactly that hash and signer — and when the probe answers `true` the overall
result is the accepted `ValidTx` response, so the caller never sees the
duplicate-nonce error for an already-accepted transaction. -/
theorem send_tx_duplicate_nonce_idempotent (env : Env) (s : St)
    (tx : SignedTransaction) (check_only : Bool) (t a : Nat)
    (hreply : env.client s.clientSent.length =
      Except.ok (NetworkClientResponses.InvalidTx (InvalidTxError.InvalidNonce t a)))
    (hprobe : (tx_exists env
        { s with clientSent := s.clientSent ++ [⟨tx, false, check_only⟩] }
        tx.get_hash tx.transaction.signer_id).1 = Except.ok true) :
    send_tx env s tx check_only =
      (Except.ok NetworkClientResponses.ValidTx,
       (tx_exists env { s with clientSent := s.clientSent ++ [⟨tx, false, check_only⟩] }
          tx.get_hash tx.transaction.signer_id).2)
    ∧ (((tx_exists env { s with clientSent := s.clientSent ++ [⟨tx, false, check_only⟩] }
          tx.get_hash tx.transaction.signer_id).2).viewQueries.drop
            s.viewQueries.length).all (probeQueryOk tx.get_hash tx.transaction.signer_id)
        = true := by
  constructor
  · rw [send_tx, hreply]
    rcases hex : tx_exists env
        { s with clientSent := s.clientSent ++ [⟨tx, false, check_only⟩] }
        tx.get_hash tx.transaction.signer_id with ⟨r, s2⟩
    rw [hex] at hprobe
    simp only at hprobe
    subst hprobe
    rfl
  · obtain ⟨l, hl, hall⟩ := tx_exists_go_viewQueries env tx.get_hash tx.transaction.signer_id
      env.existsFuel { s with clientSent := s.clientSent ++ [⟨tx, false, check_only⟩] }
    rw [tx_exists, hl]
    simpa using hall

/-- Witness for C1 at a concrete input: the ingestion worker rejects `txW`
with an invalid nonce, the view worker finds the record at once, and the
submission succeeds with `ValidTx`. -/
theorem send_tx_duplicate_nonce_idempotent_witness :
    send_tx envC1w st0 txW false =
      (Except.ok NetworkClientResponses.ValidTx,
       (tx_exists envC1w { st0 with clientSent := st0.clientSent ++ [⟨txW, false, false⟩] }
          txW.get_hash txW.transaction.signer_id).2)
    ∧ (((tx_exists envC1w { st0 with clientSent := st0.clientSent ++ [⟨txW, false, false⟩] }
          txW.get_hash txW.transaction.signer_id).2).viewQueries.drop
            st0.viewQueries.length).all (probeQueryOk txW.get_hash txW.transaction.signer_id)
        = true :=
  send_tx_duplicate_nonce_idempotent envC1w st0 txW false 5 4 rfl rfl

/-- C3: the mapping from backend communication failures and
invalid-transaction business failures to server error kinds is total and
deterministic — a closed mailbox maps to `Closed`, a mailbox timeout to
`Timeout`, every mailbox failure to exactly one of the two, and every
invalid-transaction failure to `TxExecutionError` carrying the original
cause. -/
theorem server_error_mapping_total :
    ServerError.fromMailbox MailboxError.Closed = ServerError.Closed
    ∧ ServerError.fromMailbox MailboxError.Timeout = ServerError.Timeout
    ∧ (∀ e : InvalidTxError, ServerError.fromInvalidTx e =
        ServerError.TxExecutionError (TxExecutionError.InvalidTxError e))
    ∧ (∀ m : MailboxError, ServerError.fromMailbox m = ServerError.Closed
        ∨ ServerError.fromMailbox m = ServerError.Timeout) := by
  refine ⟨rfl, rfl, fun e => rfl, fun m => ?_⟩
  cases m
  · exact Or.inl rfl
  · exact Or.inr rfl

/-- C7: the fire-and-forget submit sends the transaction to the ingestion
worker without awaiting any reply and returns the base-encoded transaction
hash; the result does not depend on any backend reply (the environment does
not occur in the right-hand side) and no status probe is made (the view-query
record is unchanged). -/
theorem broadcast_tx_async_fire_and_forget (env : Env) (s : St)
    (params : Option Value) (tx : SignedTransaction)
    (hp : parse_tx params = Except.ok tx) :
    send_tx_async env s params =
      (Except.ok (Value.str (to_base tx.get_hash)),
       { s with clientSent := s.clientSent ++ [⟨tx, false, false⟩] }) := by
  rw [send_tx_async, hp]

/-- Witness for C7 at a concrete input: `paramsW` parses to `txW` and the
quiescent environment (whose backend never answers) still yields the hash. -/
theorem broadcast_tx_async_fire_and_forget_witness :
    send_tx_async envDefault st0 paramsW =
      (Except.ok (Value.str (to_base txW.get_hash)),
       { st0 with clientSent := st0.clientSent ++ [⟨txW, false, false⟩] }) :=
  broadcast_tx_async_fire_and_forget envDefault st0 paramsW txW rfl

/-- C4 counterexample: submitting a non-base64 payload yields a parse error
(JSON-RPC code -32700), not an invalid-params error (code -32602), so the
claim that a non-base64 string yields an "invalid params" error is false at
this input; no message reaches the ingestion worker. -/
theorem invalid_base64_parse_error_counterexample :
    send_tx_async envDefault st0 (some (Value.arr [Value.str "!!!!"])) =
      (Except.error (RpcError.parse_error "Invalid base64"), st0)
    ∧ (RpcError.parse_error "Invalid base64").code = -32700
    ∧ (RpcError.parse_error "Invalid base64").code ≠
        (RpcError.invalid_params "Invalid base64").code := by
  refine ⟨rfl, rfl, ?_⟩
  decide

/-- C4 (amended): for all four submit methods, any parse failure — a
non-base64 string (a parse error, code -32700), or bytes that do not
deserialize (an invalid-params error, code -32602) — is returned directly,
with no message ever sent to the ingestion worker (the interaction record is
unchanged). -/
theorem parse_failures_rejected_before_send (env : Env) (s : St)
    (params : Option Value) (e : RpcError)
    (h : parse_tx params = Except.error e) :
    send_tx_async env s params = (Except.error e, s)
    ∧ send_tx_sync env s params = (Except.error e, s)
    ∧ check_tx env s params = (Except.error e, s)
    ∧ send_tx_commit env s params = (Except.error e, s)
    ∧ (e.code = -32602 ∨ e.code = -32700) := by
  refine ⟨?_, ?_, ?_, ?_, parse_tx_error_code params e h⟩
  · rw [send_tx_async, h]
  · rw [send_tx_sync, send_or_check_tx, h]
  · rw [check_tx, send_or_check_tx, h]
  · rw [send_tx_commit, h]

/-- Witness for the amended C4 at a concrete input: a payload whose bytes do
not deserialize into a signed transaction. -/
theorem parse_failures_rejected_before_send_witness :
    send_tx_async envDefault st0 (some (Value.arr [Value.str "AAAA"])) =
      (Except.error (RpcError.invalid_params
        "Failed to decode transaction: Unexpected length of input"), st0)
    ∧ send_tx_sync envDefault st0 (some (Value.arr [Value.str "AAAA"])) =
        (Except.error (RpcError.invalid_params
          "Failed to decode transaction: Unexpected length of input"), st0)
    ∧ check_tx envDefault st0 (some (Value.arr [Value.str "AAAA"])) =
        (Except.error (RpcError.invalid_params
          "Failed to decode transaction: Unexpected length of input"), st0)
    ∧ send_tx_commit envDefault st0 (some (Value.arr [Value.str "AAAA"])) =
        (Except.error (RpcError.invalid_params
          "Failed to decode transaction: Unexpected length of input"), st0)
    ∧ ((RpcError.invalid_params
          "Failed to decode transaction: Unexpected length of input").code = -32602
        ∨ (RpcError.invalid_params
          "Failed to decode transaction: Unexpected length of input").code = -32700) :=
  parse_failures_rejected_before_send envDefault st0 (some (Value.arr [Value.str "AAAA"]))
    (RpcError.invalid_params "Failed to decode transaction: Unexpected length of input") rfl

/-- C2: when the view worker reports an unknown (missing) transaction to a
status fetch whose identity is a full signed transaction, exactly one
check-only resubmission is sent to the ingestion worker within that polling
iteration; if the resubmission reports the transaction invalid, the outer
polling loop terminates with that invalidity error, and otherwise it
continues polling rather than terminating. -/
theorem resubmission_on_unknown_transaction (env : Env) (s : St)
    (tx : SignedTransaction) (p : Nat) (h : CryptoHash)
    (hv : env.view s.viewQueries.length =
      Except.ok (Except.error (TxStatusError.MissingTransaction h)))
    (hf : env.fetchFuel ≠ 0) :
    ((send_tx env
        { s with viewQueries :=
            s.viewQueries ++ [⟨tx.get_hash, tx.transaction.signer_id, false⟩] }
        tx true).2).clientSent = s.clientSent ++ [⟨tx, false, true⟩]
    ∧ tx_polling_go env (TransactionInfo.Transaction tx) (p + 1) s =
        (match send_tx env
            { s with viewQueries :=
                s.viewQueries ++ [⟨tx.get_hash, tx.transaction.signer_id, false⟩] }
            tx true with
         | (Except.ok (NetworkClientResponses.InvalidTx e), s2) =>
             (Except.error (RpcError.server_error (some (Value.str
               (TxStatusError.toMessage (TxStatusError.InvalidTx e))))), s2)
         | (_, s2) => tx_polling_go env (TransactionInfo.Transaction tx) p s2) := by
  constructor
  · exact send_tx_clientSent env _ tx true
  · obtain ⟨f, hfe⟩ : ∃ f, env.fetchFuel = f + 1 := by
      cases hfc : env.fetchFuel with
      | zero => exact absurd hfc hf
      | succ f => exact ⟨f, rfl⟩
    rw [tx_polling_go]
    have hfetch : tx_status_fetch env s (TransactionInfo.Transaction tx) false =
        (match send_tx env
            { s with viewQueries :=
                s.viewQueries ++ [⟨tx.get_hash, tx.transaction.signer_id, false⟩] }
            tx true with
         | (Except.ok (NetworkClientResponses.InvalidTx e), s2) =>
             (Except.error (TxStatusError.InvalidTx e), s2)
         | (_, s2) => (Except.error (TxStatusError.MissingTransaction h), s2)) := by
      rw [tx_status_fetch, hfe, tx_status_fetch_go, hv]
    rw [hfetch]
    rcases hst : send_tx env
        { s with viewQueries :=
            s.viewQueries ++ [⟨tx.get_hash, tx.transaction.signer_id, false⟩] }
        tx true with ⟨sr, s2⟩
    rcases sr with e | r
    · rfl
    · cases r <;> rfl

/-- Witness for C2 at a concrete input: the view worker does not know `txW`,
the check-only resubmission reports it invalid (malformed), and the polling
loop terminates with that invalidity error after exactly one resubmission. -/
theorem resubmission_on_unknown_transaction_witness :
    ((send_tx envC2w
        { st0 with viewQueries :=
            st0.viewQueries ++ [⟨txW.get_hash, txW.transaction.signer_id, false⟩] }
        txW true).2).clientSent = st0.clientSent ++ [⟨txW, false, true⟩]
    ∧ tx_polling_go envC2w (TransactionInfo.Transaction txW) (0 + 1) st0 =
        (match send_tx envC2w
            { st0 with viewQueries :=
                st0.viewQueries ++ [⟨txW.get_hash, txW.transaction.signer_id, false⟩] }
            txW true with
         | (Except.ok (NetworkClientResponses.InvalidTx e), s2) =>
             (Except.error (RpcError.server_error (some (Value.str
               (TxStatusError.toMessage (TxStatusError.InvalidTx e))))), s2)
         | (_, s2) => tx_polling_go envC2w (TransactionInfo.Transaction txW) 0 s2) :=
  resubmission_on_unknown_transaction envC2w st0 txW 0 0 rfl (by decide)

/-- Environment whose view worker finds the status record at once. -/
def envViewFound : Env :=
  mkEnv (fun _ => Except.ok NetworkClientResponses.NoResponse)
    (fun _ => Except.ok (Except.ok (some outcomeW))) 0 0 0

/-- Environment whose view worker reports the transaction unknown. -/
def envViewMissing : Env :=
  mkEnv (fun _ => Except.ok NetworkClientResponses.NoResponse)
    (fun _ => Except.ok (Except.error (TxStatusError.MissingTransaction 3))) 0 0 0

/-- Environment whose view worker answers not-yet-known. -/
def envViewPending : Env :=
  mkEnv (fun _ => Except.ok NetworkClientResponses.NoResponse)
    (fun _ => Except.ok (Except.ok none)) 0 0 0

/-- Environment whose view worker reports a chain error. -/
def envViewChainErr : Env :=
  mkEnv (fun _ => Except.ok NetworkClientResponses.NoResponse)
    (fun _ => Except.ok (Except.error (TxStatusError.ChainError "db"))) 0 0 0

/-- C6: the bounded existence-check loop returns `true` when the view worker
reports a status record found, `false` when it explicitly reports an unknown
(missing) transaction, and the `Timeout` server error when the bounded
deadline elapses (the fuel is exhausted); every view-worker business outcome
other than found and unknown — not-yet-known as well as any other status
error — does not terminate the check but is retried in the polling loop.
The five scenarios are independent instances. -/
theorem tx_exists_outcomes
    (envA : Env) (hashA : CryptoHash) (acctA : AccountId) (fA : Nat) (sA : St)
    (oA : FinalExecutionOutcomeViewEnum)
    (hvA : envA.view sA.viewQueries.length = Except.ok (Except.ok (some oA)))
    (envB : Env) (hashB : CryptoHash) (acctB : AccountId) (fB : Nat) (sB : St)
    (missB : CryptoHash)
    (hvB : envB.view sB.viewQueries.length =
      Except.ok (Except.error (TxStatusError.MissingTransaction missB)))
    (envC : Env) (hashC : CryptoHash) (acctC : AccountId) (sC : St)
    (envD : Env) (hashD : CryptoHash) (acctD : AccountId) (fD : Nat) (sD : St)
    (hvD : envD.view sD.viewQueries.length = Except.ok (Except.ok none))
    (envE : Env) (hashE : CryptoHash) (acctE : AccountId) (fE : Nat) (sE : St)
    (terrE : TxStatusError)
    (hvE : envE.view sE.viewQueries.length = Except.ok (Except.error terrE))
    (htE : terrE.isMissingTx = false) :
    tx_exists_go envA hashA acctA (fA + 1) sA =
      (Except.ok true,
       { sA with viewQueries := sA.viewQueries ++ [⟨hashA, acctA, false⟩] })
    ∧ tx_exists_go envB hashB acctB (fB + 1) sB =
      (Except.ok false,
       { sB with viewQueries := sB.viewQueries ++ [⟨hashB, acctB, false⟩] })
    ∧ tx_exists_go envC hashC acctC 0 sC = (Except.error ServerError.Timeout, sC)
    ∧ tx_exists_go envD hashD acctD (fD + 1) sD =
        tx_exists_go envD hashD acctD fD
          { sD with viewQueries := sD.viewQueries ++ [⟨hashD, acctD, false⟩] }
    ∧ tx_exists_go envE hashE acctE (fE + 1) sE =
        tx_exists_go envE hashE acctE fE
          { sE with viewQueries := sE.viewQueries ++ [⟨hashE, acctE, false⟩] } := by
  refine ⟨?_, ?_, rfl, ?_, ?_⟩
  · rw [tx_exists_go, hvA]
  · rw [tx_exists_go, hvB]
  · rw [tx_exists_go, hvD]
  · rw [tx_exists_go, hvE]
    cases terrE with
    | ChainError r => rfl
    | MissingTransaction hh => exact absurd htE (by simp [TxStatusError.isMissingTx])
    | InvalidTx e => rfl
    | InternalError => rfl
    | TimeoutError => rfl

/-- Witness for C6 at concrete inputs: found, missing, elapsed deadline,
pending retried, and chain-error retried. -/
theorem tx_exists_outcomes_witness :
    tx_exists_go envViewFound 7 "alice" (0 + 1) st0 =
      (Except.ok true,
       { st0 with viewQueries := st0.viewQueries ++ [⟨7, "alice", false⟩] })
    ∧ tx_exists_go envViewMissing 7 "alice" (0 + 1) st0 =
      (Except.ok false,
       { st0 with viewQueries := st0.viewQueries ++ [⟨7, "alice", false⟩] })
    ∧ tx_exists_go envViewPending 7 "alice" 0 st0 = (Except.error ServerError.Timeout, st0)
    ∧ tx_exists_go envViewPending 7 "alice" (0 + 1) st0 =
        tx_exists_go envViewPending 7 "alice" 0
          { st0 with viewQueries := st0.viewQueries ++ [⟨7, "alice", false⟩] }
    ∧ tx_exists_go envViewChainErr 7 "alice" (0 + 1) st0 =
        tx_exists_go envViewChainErr 7 "alice" 0
          { st0 with viewQueries := st0.viewQueries ++ [⟨7, "alice", false⟩] } :=
  tx_exists_outcomes envViewFound 7 "alice" 0 st0 outcomeW rfl
    envViewMissing 7 "alice" 0 st0 3 rfl
    envViewPending 7 "alice" st0
    envViewPending 7 "alice" 0 st0 rfl
    envViewChainErr 7 "alice" 0 st0 (TxStatusError.ChainError "db") rfl rfl

/-- C5 counterexample: in commit-wait mode, when the initial status fetch
times out and the ingestion worker answers `NoResponse` — a backend submission
outcome other than accepted-as-new, routed, rejected-invalid and
shard-not-tracked — the caller receives the `Timeout` server error, not the
`InternalError` one, so the claim that every such outcome (including
no-response) surfaces as an internal server error is false at this input. -/
theorem commit_no_response_timeout_counterexample :
    send_tx_commit envDefault st0 paramsW =
      (Except.error (RpcError.server_error (some (ServerError.toJson ServerError.Timeout))),
       ⟨[⟨txW, false, false⟩], []⟩)
    ∧ envDefault.client 0 = Except.ok NetworkClientResponses.NoResponse
    ∧ ServerError.toJson ServerError.Timeout ≠ ServerError.toJson ServerError.InternalError := by
  refine ⟨rfl, rfl, ?_⟩
  intro hcon
  simp only [ServerError.toJson, Value.str.injEq] at hcon
  exact absurd hcon (by decide)

/-- C5 (amended): in sync-check submission every backend submission outcome
other than accepted-as-new, routed, rejected-invalid and shard-not-tracked
maps to the `InternalError` server error; in commit-wait submission such
outcomes map to `InternalError` except `NoResponse`, which maps to the
`Timeout` server error; a worker-unreachable mailbox failure maps to the
server error carrying the mailbox mapping (`Closed` or `Timeout`), not to
`InternalError`.  The three scenarios are independent instances. -/
theorem backend_other_outcomes_error_mapping
    (envA : Env) (sA : St) (paramsA : Option Value) (txA : SignedTransaction)
    (ckA : Bool) (respA : NetworkClientResponses)
    (hpA : parse_tx paramsA = Except.ok txA)
    (hrA : envA.client sA.clientSent.length = Except.ok respA)
    (hoA : otherBackendOutcome respA = true)
    (envB : Env) (sB : St) (paramsB : Option Value) (txB : SignedTransaction)
    (terrB : TxStatusError) (sB1 : St) (respB : NetworkClientResponses)
    (hpB : parse_tx paramsB = Except.ok txB)
    (hfB : tx_status_fetch envB sB (TransactionInfo.Transaction txB) false =
      (Except.error terrB, sB1))
    (htB : terrB.isInvalidTxKind = false)
    (hrB : envB.client sB1.clientSent.length = Except.ok respB)
    (hoB : otherBackendOutcome respB = true)
    (envC : Env) (sC : St) (paramsC : Option Value) (txC : SignedTransaction)
    (ckC : Bool) (mC : MailboxError)
    (hpC : parse_tx paramsC = Except.ok txC)
    (hmC : envC.client sC.clientSent.length = Except.error mC) :
    send_or_check_tx envA sA paramsA ckA =
      (Except.error (RpcError.server_error (some (ServerError.toJson
        ServerError.InternalError))),
       { sA with clientSent := sA.clientSent ++ [⟨txA, false, ckA⟩] })
    ∧ send_tx_commit envB sB paramsB =
        ((if respB = NetworkClientResponses.NoResponse
          then Except.error (RpcError.server_error (some (ServerError.toJson
            ServerError.Timeout)))
          else Except.error (RpcError.server_error (some (ServerError.toJson
            ServerError.InternalError)))),
         { sB1 with clientSent := sB1.clientSent ++ [⟨txB, false, false⟩] })
    ∧ send_or_check_tx envC sC paramsC ckC =
        (Except.error (RpcError.ofServerError (ServerError.fromMailbox mC)),
         { sC with clientSent := sC.clientSent ++ [⟨txC, false, ckC⟩] }) := by
  refine ⟨?_, ?_, ?_⟩
  · cases respA with
    | ValidTx => exact absurd hoA (by simp [otherBackendOutcome])
    | RequestRouted => exact absurd hoA (by simp [otherBackendOutcome])
    | InvalidTx e => exact absurd hoA (by simp [otherBackendOutcome])
    | DoesNotTrackShard => exact absurd hoA (by simp [otherBackendOutcome])
    | NoResponse =>
      have hsend : send_tx envA sA txA ckA =
          (Except.ok NetworkClientResponses.NoResponse,
           { sA with clientSent := sA.clientSent ++ [⟨txA, false, ckA⟩] }) := by
        simp only [send_tx, hrA]
      simp only [send_or_check_tx, hpA, hsend]
    | Ban r =>
      have hsend : send_tx envA sA txA ckA =
          (Except.ok (NetworkClientResponses.Ban r),
           { sA with clientSent := sA.clientSent ++ [⟨txA, false, ckA⟩] }) := by
        simp only [send_tx, hrA]
      simp only [send_or_check_tx, hpA, hsend]
  · have hsend : send_tx envB sB1 txB false =
        (Except.ok respB,
         { sB1 with clientSent := sB1.clientSent ++ [⟨txB, false, false⟩] }) := by
      cases respB with
      | ValidTx => exact absurd hoB (by simp [otherBackendOutcome])
      | RequestRouted => exact absurd hoB (by simp [otherBackendOutcome])
      | InvalidTx e => exact absurd hoB (by simp [otherBackendOutcome])
      | DoesNotTrackShard => exact absurd hoB (by simp [otherBackendOutcome])
      | NoResponse => simp only [send_tx, hrB]
      | Ban r => simp only [send_tx, hrB]
    cases terrB with
    | InvalidTx e => exact absurd htB (by simp [TxStatusError.isInvalidTxKind])
    | ChainError r =>
      simp only [send_tx_commit, hpB, hfB, hsend]
      cases respB with
      | ValidTx => exact absurd hoB (by simp [otherBackendOutcome])
      | RequestRouted => exact absurd hoB (by simp [otherBackendOutcome])
      | InvalidTx e => exact absurd hoB (by simp [otherBackendOutcome])
      | DoesNotTrackShard => exact absurd hoB (by simp [otherBackendOutcome])
      | NoResponse => simp
      | Ban r2 => simp
    | InternalError =>
      simp only [send_tx_commit, hpB, hfB, hsend]
      cases respB with
      | ValidTx => exact absurd hoB (by simp [otherBackendOutcome])
      | RequestRouted => exact absurd hoB (by simp [otherBackendOutcome])
      | InvalidTx e => exact absurd hoB (by simp [otherBackendOutcome])
      | DoesNotTrackShard => exact absurd hoB (by simp [otherBackendOutcome])
      | NoResponse => simp
      | Ban r2 => simp
    | TimeoutError =>
      simp only [send_tx_commit, hpB, hfB, hsend]
      cases respB with
      | ValidTx => exact absurd hoB (by simp [otherBackendOutcome])
      | RequestRouted => exact absurd hoB (by simp [otherBackendOutcome])
      | InvalidTx e => exact absurd hoB (by simp [otherBackendOutcome])
      | DoesNotTrackShard => exact absurd hoB (by simp [otherBackendOutcome])
      | NoResponse => simp
      | Ban r2 => simp
    | MissingTransaction hh =>
      simp only [send_tx_commit, hpB, hfB, hsend]
      cases respB with
      | ValidTx => exact absurd hoB (by simp [otherBackendOutcome])
      | RequestRouted => exact absurd hoB (by simp [otherBackendOutcome])
      | InvalidTx e => exact absurd hoB (by simp [otherBackendOutcome])
      | DoesNotTrackShard => exact absurd hoB (by simp [otherBackendOutcome])
      | NoResponse => simp
      | Ban r2 => simp
  · have hsend : send_tx envC sC txC ckC =
        (Except.error (RpcError.ofServerError (ServerError.fromMailbox mC)),
         { sC with clientSent := sC.clientSent ++ [⟨txC, false, ckC⟩] }) := by
      simp only [send_tx, hmC]
    simp only [send_or_check_tx, hpC, hsend]

/-- Witness for the amended C5 at concrete inputs: sync-check with a
`NoResponse` outcome, commit-wait with a timed-out fetch and a `NoResponse`
outcome, and a closed ingestion mailbox. -/
theorem backend_other_outcomes_error_mapping_witness :
    send_or_check_tx envDefault st0 paramsW false =
      (Except.error (RpcError.server_error (some (ServerError.toJson
        ServerError.InternalError))),
       { st0 with clientSent := st0.clientSent ++ [⟨txW, false, false⟩] })
    ∧ send_tx_commit envDefault st0 paramsW =
        ((if NetworkClientResponses.NoResponse = NetworkClientResponses.NoResponse
          then Except.error (RpcError.server_error (some (ServerError.toJson
            ServerError.Timeout)))
          else Except.error (RpcError.server_error (some (ServerError.toJson
            ServerError.InternalError)))),
         { st0 with clientSent := st0.clientSent ++ [⟨txW, false, false⟩] })
    ∧ send_or_check_tx envClosed st0 paramsW true =
        (Except.error (RpcError.ofServerError (ServerError.fromMailbox MailboxError.Closed)),
         { st0 with clientSent := st0.clientSent ++ [⟨txW, false, true⟩] }) :=
  backend_other_outcomes_error_mapping
    envDefault st0 paramsW txW false NetworkClientResponses.NoResponse rfl rfl rfl
    envDefault st0 paramsW txW TxStatusError.TimeoutError st0
      NetworkClientResponses.NoResponse rfl rfl rfl rfl rfl
    envClosed st0 paramsW txW true MailboxError.Closed rfl rfl

/-- C8: a request envelope whose method is not one of the dispatch table's
named methods is answered by a response envelope echoing the request id
verbatim and carrying the method-not-found error; no backend worker is
contacted (the interaction record is unchanged). -/
theorem unknown_method_not_found (env : Env) (s : St) (i : Value)
    (method : String) (params : Option Value)
    (hm : method ∉ dispatchTableMethods) :
    process env s (Message.request ⟨i, method, params⟩) =
      (Message.response i (Except.error (RpcError.method_not_found method)), s) := by
  have h : ∀ x ∈ dispatchTableMethods, ¬ method = x := by
    intro x hx heq
    exact hm (heq ▸ hx)
  simp only [process, Message.id, process_request]
  rw [if_neg (h _ (by simp [dispatchTableMethods])),
    if_neg (h _ (by simp [dispatchTableMethods])),
    if_neg (h _ (by simp [dispatchTableMethods])),
    if_neg (h _ (by simp [dispatchTableMethods])),
    if_neg (h _ (by simp [dispatchTableMethods])),
    if_neg (h _ (by simp [dispatchTableMethods])),
    if_neg (h _ (by simp [dispatchTableMethods])),
    if_neg (h _ (by simp [dispatchTableMethods])),
    if_neg (h _ (by simp [dispatchTableMethods])),
    if_neg (h _ (by simp [dispatchTableMethods])),
    if_neg (h _ (by simp [dispatchTableMethods])),
    if_neg (h _ (by simp [dispatchTableMethods])),
    if_neg (h _ (by simp [dispatchTableMethods])),
    if_neg (h _ (by simp [dispatchTableMethods])),
    if_neg (h _ (by simp [dispatchTableMethods])),
    if_neg (h _ (by simp [dispatchTableMethods])),
    if_neg (h _ (by simp [dispatchTableMethods])),
    if_neg (h _ (by simp [dispatchTableMethods])),
    if_neg (h _ (by simp [dispatchTableMethods])),
    if_neg (h _ (by simp [dispatchTableMethods])),
    if_neg (h _ (by simp [dispatchTableMethods])),
    if_neg (h _ (by simp [dispatchTableMethods])),
    if_neg (h _ (by simp [dispatchTableMethods]))]

/-- Witness for C8 at a concrete input: the request
`{id: 1, method: "not_a_method"}` yields the method-not-found error echoing
id 1. -/
theorem unknown_method_not_found_witness :
    process envDefault st0 (Message.request ⟨Value.num 1, "not_a_method", none⟩) =
      (Message.response (Value.num 1)
        (Except.error (RpcError.method_not_found "not_a_method")), st0) :=
  unknown_method_not_found envDefault st0 (Value.num 1) "not_a_method" none (by decide)

theorem take_prefix_self {α : Type} (a : List α) (x : α) :
    (a ++ [x]).take (a.length + 1) = a ++ [x] := by
  have h1 : a.length + 1 = (a ++ [x]).length := by simp
  rw [h1, List.take_length]

theorem take_prefix_append {α : Type} (a : List α) (x : α) (l : List α) :
    ((a ++ [x]) ++ l).take (a.length + 1) = a ++ [x] := by
  have h1 : a.length + 1 = (a ++ [x]).length := by simp
  rw [h1, List.take_left]

/-- C9: commit-wait submission resolves the transaction status before
submitting: when the final outcome is already observable the existing outcome
is returned at once and no message at all is sent to the ingestion worker;
when the initial fetch ends with an invalidity error that error is surfaced
and only check-only messages were sent; and only when the initial fetch fails
without an invalidity error is the transaction forwarded for ingestion — the
first message after the fetch is the non-check-only submission.  The three
scenarios are independent instances. -/
theorem commit_checks_status_before_submit
    (envA : Env) (sA : St) (paramsA : Option Value) (txA : SignedTransaction)
    (oA : FinalExecutionOutcomeViewEnum) (sA1 : St)
    (hpA : parse_tx paramsA = Except.ok txA)
    (hfA : tx_status_fetch envA sA (TransactionInfo.Transaction txA) false =
      (Except.ok oA, sA1))
    (envB : Env) (sB : St) (paramsB : Option Value) (txB : SignedTransaction)
    (eB : InvalidTxError) (sB1 : St)
    (hpB : parse_tx paramsB = Except.ok txB)
    (hfB : tx_status_fetch envB sB (TransactionInfo.Transaction txB) false =
      (Except.error (TxStatusError.InvalidTx eB), sB1))
    (envC : Env) (sC : St) (paramsC : Option Value) (txC : SignedTransaction)
    (terrC : TxStatusError) (sC1 : St)
    (hpC : parse_tx paramsC = Except.ok txC)
    (hfC : tx_status_fetch envC sC (TransactionInfo.Transaction txC) false =
      (Except.error terrC, sC1))
    (htC : terrC.isInvalidTxKind = false) :
    send_tx_commit envA sA paramsA = (Except.ok (FinalExecutionOutcomeViewEnum.toJson oA), sA1)
    ∧ sA1.clientSent = sA.clientSent
    ∧ send_tx_commit envB sB paramsB =
        (Except.error (RpcError.server_error (some (ServerError.toJson
          (ServerError.TxExecutionError (TxExecutionError.InvalidTxError eB))))), sB1)
    ∧ (sB1.clientSent.drop sB.clientSent.length).all (fun m => m.check_only) = true
    ∧ (send_tx_commit envC sC paramsC).2.clientSent.take (sC1.clientSent.length + 1) =
        sC1.clientSent ++ [⟨txC, false, false⟩] := by
  refine ⟨?_, ?_, ?_, ?_, ?_⟩
  · simp only [send_tx_commit, hpA, hfA, jsonify]
  · exact tx_status_fetch_ok_clientSent envA sA _ false oA sA1 hfA
  · simp only [send_tx_commit, hpB, hfB]
  · obtain ⟨l, hl, ha⟩ := tx_status_fetch_checkOnly envB sB (TransactionInfo.Transaction txB) false
    rw [hfB] at hl
    rw [hl, List.drop_left]
    exact ha
  · cases terrC with
    | InvalidTx e => exact absurd htC (by simp [TxStatusError.isInvalidTxKind])
    | ChainError r =>
      simp only [send_tx_commit, hpC, hfC]
      have h2 := send_tx_clientSent envC sC1 txC false
      rcases hsd : send_tx envC sC1 txC false with ⟨sr, s2⟩
      rw [hsd] at h2
      rcases sr with e | r2
      · rw [h2]; exact take_prefix_self _ _
      · cases r2 <;> first
          | (rw [h2]; exact take_prefix_self _ _)
          | (obtain ⟨l2, hl2, _⟩ := tx_polling_go_checkOnly envC
               (TransactionInfo.Transaction txC) envC.pollFuel s2
             simp only [tx_polling]
             rw [hl2, h2]
             exact take_prefix_append _ _ _)
    | MissingTransaction hh =>
      simp only [send_tx_commit, hpC, hfC]
      have h2 := send_tx_clientSent envC sC1 txC false
      rcases hsd : send_tx envC sC1 txC false with ⟨sr, s2⟩
      rw [hsd] at h2
      rcases sr with e | r2
      · rw [h2]; exact take_prefix_self _ _
      · cases r2 <;> first
          | (rw [h2]; exact take_prefix_self _ _)
          | (obtain ⟨l2, hl2, _⟩ := tx_polling_go_checkOnly envC
               (TransactionInfo.Transaction txC) envC.pollFuel s2
             simp only [tx_polling]
             rw [hl2, h2]
             exact take_prefix_append _ _ _)
    | InternalError =>
      simp only [send_tx_commit, hpC, hfC]
      have h2 := send_tx_clientSent envC sC1 txC false
      rcases hsd : send_tx envC sC1 txC false with ⟨sr, s2⟩
      rw [hsd] at h2
      rcases sr with e | r2
      · rw [h2]; exact take_prefix_self _ _
      · cases r2 <;> first
          | (rw [h2]; exact take_prefix_self _ _)
          | (obtain ⟨l2, hl2, _⟩ := tx_polling_go_checkOnly envC
               (TransactionInfo.Transaction txC) envC.pollFuel s2
             simp only [tx_polling]
             rw [hl2, h2]
             exact take_prefix_append _ _ _)
    | TimeoutError =>
      simp only [send_tx_commit, hpC, hfC]
      have h2 := send_tx_clientSent envC sC1 txC false
      rcases hsd : send_tx envC sC1 txC false with ⟨sr, s2⟩
      rw [hsd] at h2
      rcases sr with e | r2
      · rw [h2]; exact take_prefix_self _ _
      · cases r2 <;> first
          | (rw [h2]; exact take_prefix_self _ _)
          | (obtain ⟨l2, hl2, _⟩ := tx_polling_go_checkOnly envC
               (TransactionInfo.Transaction txC) envC.pollFuel s2
             simp only [tx_polling]
             rw [hl2, h2]
             exact take_prefix_append _ _ _)

/-- Witness for C9 at concrete inputs: an already-observable outcome returned
with no submission, an invalid resubmission surfaced, and a timed-out fetch
followed by the non-check-only ingestion forward. -/
theorem commit_checks_status_before_submit_witness :
    send_tx_commit envAccept st0 paramsW =
      (Except.ok (FinalExecutionOutcomeViewEnum.toJson outcomeW),
       ⟨[], [⟨txW.get_hash, txW.transaction.signer_id, false⟩]⟩)
    ∧ St.clientSent ⟨[], [⟨txW.get_hash, txW.transaction.signer_id, false⟩]⟩ =
        st0.clientSent
    ∧ send_tx_commit envFetchInvalid st0 paramsW =
        (Except.error (RpcError.server_error (some (ServerError.toJson
          (ServerError.TxExecutionError (TxExecutionError.InvalidTxError
            (InvalidTxError.Other "bad")))))),
         ⟨[⟨txW, false, true⟩], [⟨txW.get_hash, txW.transaction.signer_id, false⟩]⟩)
    ∧ ((St.clientSent ⟨[⟨txW, false, true⟩],
          [⟨txW.get_hash, txW.transaction.signer_id, false⟩]⟩).drop
            st0.clientSent.length).all (fun m => m.check_only) = true
    ∧ (send_tx_commit envDefault st0 paramsW).2.clientSent.take
        (st0.clientSent.length + 1) = st0.clientSent ++ [⟨txW, false, false⟩] :=
  commit_checks_status_before_submit
    envAccept st0 paramsW txW outcomeW
      ⟨[], [⟨txW.get_hash, txW.transaction.signer_id, false⟩]⟩ rfl rfl
    envFetchInvalid st0 paramsW txW (InvalidTxError.Other "bad")
      ⟨[⟨txW, false, true⟩], [⟨txW.get_hash, txW.transaction.signer_id, false⟩]⟩ rfl rfl
    envDefault st0 paramsW txW TxStatusError.TimeoutError st0 rfl rfl rfl

/-- C10: a transaction accepted in check-only mode answers with JSON `null`
(no acknowledgment payload), while the same acceptance in sync-check mode
answers with the object carrying the base-encoded transaction hash and the
routed flag; and in check-only mode an accepted-and-routed-elsewhere outcome
surfaces as the fixed does-not-track-shard server error instead of success.
The three scenarios are independent instances. -/
theorem check_tx_null_vs_sync_ack
    (envA : Env) (sA : St) (paramsA : Option Value) (txA : SignedTransaction)
    (hpA : parse_tx paramsA = Except.ok txA)
    (hrA : envA.client sA.clientSent.length = Except.ok NetworkClientResponses.ValidTx)
    (envB : Env) (sB : St) (paramsB : Option Value) (txB : SignedTransaction)
    (hpB : parse_tx paramsB = Except.ok txB)
    (hrB : envB.client sB.clientSent.length = Except.ok NetworkClientResponses.ValidTx)
    (envC : Env) (sC : St) (paramsC : Option Value) (txC : SignedTransaction)
    (hpC : parse_tx paramsC = Except.ok txC)
    (hrC : envC.client sC.clientSent.length = Except.ok NetworkClientResponses.RequestRouted) :
    check_tx envA sA paramsA =
      (Except.ok Value.null,
       { sA with clientSent := sA.clientSent ++ [⟨txA, false, true⟩] })
    ∧ send_tx_sync envB sB paramsB =
        (Except.ok (Value.obj [("transaction_hash", Value.str (to_base txB.get_hash)),
            ("is_routed", Value.bool false)]),
         { sB with clientSent := sB.clientSent ++ [⟨txB, false, false⟩] })
    ∧ check_tx envC sC paramsC =
        (Except.error (RpcError.server_error (some (Value.str does_not_track_shard_err))),
         { sC with clientSent := sC.clientSent ++ [⟨txC, false, true⟩] }) := by
  refine ⟨?_, ?_, ?_⟩
  · have hsend : send_tx envA sA txA true =
        (Except.ok NetworkClientResponses.ValidTx,
         { sA with clientSent := sA.clientSent ++ [⟨txA, false, true⟩] }) := by
      simp only [send_tx, hrA]
    simp only [check_tx, send_or_check_tx, hpA, hsend, if_true]
  · have hsend : send_tx envB sB txB false =
        (Except.ok NetworkClientResponses.ValidTx,
         { sB with clientSent := sB.clientSent ++ [⟨txB, false, false⟩] }) := by
      simp only [send_tx, hrB]
    simp only [send_tx_sync, send_or_check_tx, hpB, hsend, jsonify,
      RpcBroadcastTxSyncResponse.toJson]
    simp
  · have hsend : send_tx envC sC txC true =
        (Except.ok NetworkClientResponses.RequestRouted,
         { sC with clientSent := sC.clientSent ++ [⟨txC, false, true⟩] }) := by
      simp only [send_tx, hrC]
    simp only [check_tx, send_or_check_tx, hpC, hsend, if_true]

/-- Witness for C10 at concrete inputs: acceptance in check-only and
sync-check mode, and a routed outcome in check-only mode. -/
theorem check_tx_null_vs_sync_ack_witness :
    check_tx envAccept st0 paramsW =
      (Except.ok Value.null,
       { st0 with clientSent := st0.clientSent ++ [⟨txW, false, true⟩] })
    ∧ send_tx_sync envAccept st0 paramsW =
        (Except.ok (Value.obj [("transaction_hash", Value.str (to_base txW.get_hash)),
            ("is_routed", Value.bool false)]),
         { st0 with clientSent := st0.clientSent ++ [⟨txW, false, false⟩] })
    ∧ check_tx envRouted st0 paramsW =
        (Except.error (RpcError.server_error (some (Value.str does_not_track_shard_err))),
         { st0 with clientSent := st0.clientSent ++ [⟨txW, false, true⟩] }) :=
  check_tx_null_vs_sync_ack envAccept st0 paramsW txW rfl rfl
    envAccept st0 paramsW txW rfl rfl
    envRouted st0 paramsW txW rfl rfl
